import Mathlib

/- Shallow embedding of src/script.py: a Telegram provisioning script that
   creates a private group and a public channel, claims a username for the
   channel, promotes a moderation bot to admin in both entities, triggers
   the bot's setup flow, relays the bot's configuration message to the
   channel and exports an invite link.  Every remote call is modelled by an
   environment recording the outcome of that call; a run is a deterministic
   function of the environment producing an Except result together with an
   ordered trace of observable effects (log entries, sleeps, remote calls,
   the final disconnect). -/

/-- Python exception values that can flow through the script
(SafeguardSetupError, the telethon errors imported at the top of the file,
TypeError, and a catch-all for any other Exception). -/
inductive Exc where
  | setupError (msg : String)
  | userNotParticipant
  | usernameOccupied
  | chatAdminRequired
  | adminsTooMuch
  | floodWait (seconds : Nat)
  | typeError (msg : String)
  | other (msg : String)
deriving DecidableEq

instance {ε α : Type} [DecidableEq ε] [DecidableEq α] : DecidableEq (Except ε α) := fun x y =>
  match x, y with
  | Except.ok a, Except.ok b =>
    if h : a = b then isTrue (by rw [h])
    else isFalse (by intro hh; cases hh; exact h rfl)
  | Except.ok _, Except.error _ => isFalse (by intro hh; cases hh)
  | Except.error _, Except.ok _ => isFalse (by intro hh; cases hh)
  | Except.error e, Except.error e2 =>
    if h : e = e2 then isTrue (by rw [h])
    else isFalse (by intro hh; cases hh; exact h rfl)

/-- The apostrophe character, used inside several of the script's messages. -/
def apos : String := String.singleton (Char.ofNat 39)

/-- Python str(e) as interpolated by the script's f-strings. -/
def excStr : Exc → String
  | Exc.setupError m => m
  | Exc.userNotParticipant => "the target user is not a member of the specified megagroup or channel"
  | Exc.usernameOccupied => "the username is already taken"
  | Exc.chatAdminRequired => "chat admin privileges are required to do that"
  | Exc.adminsTooMuch => "too many admins"
  | Exc.floodWait s => "a wait of " ++ toString s ++ " seconds is required"
  | Exc.typeError m => m
  | Exc.other m => m

/-- The participant record returned by GetParticipantRequest:
isinstance(p, ChannelParticipantAdmin) holds exactly for the admin
constructor. -/
inductive ParticipantRec where
  | admin
  | creator
  | member
  | banned
deriving DecidableEq

/-- isinstance(participant.participant, ChannelParticipantAdmin). -/
def isAdminRec : ParticipantRec → Bool
  | ParticipantRec.admin => true
  | _ => false

/-- A Telegram message as seen through iter_messages: its id and its
(text) body, which is None for service or bare-media messages. -/
structure Msg where
  id : Nat
  body : Option String
deriving DecidableEq

/-- Which entity a call targets. -/
inductive Target where
  | group
  | channel
deriving DecidableEq

/-- Observable effects of a run, in order. -/
inductive Event where
  | logInfo (msg : String)
  | logError (msg : String)
  | sleep (seconds : Nat)
  | callCreateGroup
  | callCreateChannel
  | callUpdateUsername
  | callGetInputEntity
  | callEditAdmin (t : Target)
  | callGetParticipant (t : Target)
  | callSendMessage (text : String)
  | checkLatest (attempt : Nat)
  | callForward (msgId : Nat)
  | callExportInvite
  | disconnect
deriving DecidableEq

/-- Outcomes of the remote platform for one run: each field is the result
of the corresponding remote call, and latestMessage gives, for each poll
attempt, the most recent message of the group at that moment (none when the
group reports no message). -/
structure Env where
  startResult : Except Exc Unit
  isAuthorized : Bool
  createGroup : Except Exc Nat
  createChannel : Except Exc Nat
  updateUsername : Except Exc Unit
  getInputEntity : Except Exc Nat
  editAdminGroup : Except Exc Unit
  editAdminChannel : Except Exc Unit
  getParticipantGroup : Except Exc ParticipantRec
  getParticipantChannel : Except Exc ParticipantRec
  sendMessage : Except Exc Unit
  latestMessage : Nat → Option Msg
  forward : Except Exc Unit
  exportInvite : Except Exc String

/-- A computation step: its Except outcome plus the effects it emitted. -/
abbrev Res (α : Type) := Except Exc α × List Event

/-- Sequencing: on success run the continuation and append its effects;
on error stop, keeping the effects emitted so far. -/
def rbind {α β : Type} (x : Res α) (f : α → Res β) : Res β :=
  match x with
  | (Except.error e, t) => (Except.error e, t)
  | (Except.ok a, t) => ((f a).1, t ++ (f a).2)

/-- Pure value, no effects. -/
def rpure {α : Type} (a : α) : Res α := (Except.ok a, [])

/-- Python raise. -/
def rthrow {α : Type} (e : Exc) : Res α := (Except.error e, [])

/-- Emit one observable effect. -/
def remit (e : Event) : Res Unit := (Except.ok (), [e])

/-- Lift the environment-recorded outcome of a remote call. -/
def rlift {α : Type} : Except Exc α → Res α
  | Except.ok a => (Except.ok a, [])
  | Except.error e => (Except.error e, [])

/-- Python try/except: on error run the handler and append its effects. -/
def rcatch {α : Type} (x : Res α) (h : Exc → Res α) : Res α :=
  match x with
  | (Except.ok a, t) => (Except.ok a, t)
  | (Except.error e, t) => ((h e).1, t ++ (h e).2)

/-- Python try/finally: the final action always runs; if it succeeds the
original outcome stands. -/
def rfinally {α : Type} (x : Res α) (fin : Res Unit) : Res α :=
  match x, fin with
  | (Except.ok a, t), (Except.ok _, tf) => (Except.ok a, t ++ tf)
  | (Except.ok _, t), (Except.error ef, tf) => (Except.error ef, t ++ tf)
  | (Except.error e, t), (Except.ok _, tf) => (Except.error e, t ++ tf)
  | (Except.error _, t), (Except.error ef, tf) => (Except.error ef, t ++ tf)

/-- Does the needle start the haystack (lists of characters)? -/
def startsWithL : List Char → List Char → Bool
  | _, [] => true
  | [], _ :: _ => false
  | a :: as, b :: bs => (a == b) && startsWithL as bs

/-- Does the needle occur anywhere in the haystack? -/
def occursIn : List Char → List Char → Bool
  | [], needle => needle.isEmpty
  | a :: as, needle => startsWithL (a :: as) needle || occursIn as needle

/-- Python `pat in s` on strings: substring containment. -/
def containsSub (s pat : String) : Bool := occursIn s.data pat.data

/-- The moderation bot's name, as matched against message bodies. -/
def botName : String := "SafeguardRobot"

/-- The fixed setup trigger command sent to the group. -/
def setupCommand : String := "/setup@SafeguardRobot"

/-- verify_admin_rights (src/script.py lines 26-36): look up the bot's
participant record; raise "not an admin" when the record is not a
ChannelParticipantAdmin; the except clauses map UserNotParticipantError to
"not in the channel/group" and wrap any other exception — including the
"not an admin" SafeguardSetupError raised inside the same try — into the
generic "Error verifying admin rights" message. -/
def verify_admin_rights (lookup : Except Exc ParticipantRec) (t : Target) : Res Bool :=
  rcatch
    (rbind (remit (Event.callGetParticipant t)) fun _ =>
     rbind (rlift lookup) fun p =>
     if isAdminRec p = false then
       rthrow (Exc.setupError "Safeguard bot is not an admin")
     else
       rpure true)
    (fun e =>
      match e with
      | Exc.userNotParticipant =>
          rthrow (Exc.setupError "Safeguard bot is not in the channel/group")
      | e => rthrow (Exc.setupError ("Error verifying admin rights: " ++ excStr e)))

/-- The fixed admin-rights bundle built by get_full_admin_rights
(src/script.py lines 38-51). -/
structure ChatAdminRights where
  post_messages : Bool
  edit_messages : Bool
  delete_messages : Bool
  ban_users : Bool
  invite_users : Bool
  pin_messages : Bool
  add_admins : Bool
  anonymous : Bool
  manage_call : Bool
  other : Bool
deriving DecidableEq

/-- get_full_admin_rights (src/script.py lines 38-51). -/
def get_full_admin_rights : ChatAdminRights :=
  { post_messages := true
    edit_messages := true
    delete_messages := true
    ban_users := true
    invite_users := true
    pin_messages := true
    add_admins := false
    anonymous := false
    manage_call := true
    other := true }

/-- Step 1 (lines 75-86): create the private group; any failure is wrapped
into the group-creation message. -/
def step1 (env : Env) (group_title : String) : Res Unit :=
  rcatch
    (rbind (remit (Event.logInfo "Creating private group...")) fun _ =>
     rbind (remit Event.callCreateGroup) fun _ =>
     rbind (rlift env.createGroup) fun _ =>
     remit (Event.logInfo ("Private group created: " ++ group_title)))
    (fun e => rthrow (Exc.setupError ("Failed to create private group: " ++ excStr e)))

/-- Step 2 (lines 88-99): create the public channel. -/
def step2 (env : Env) (channel_title : String) : Res Unit :=
  rcatch
    (rbind (remit (Event.logInfo "Creating public channel...")) fun _ =>
     rbind (remit Event.callCreateChannel) fun _ =>
     rbind (rlift env.createChannel) fun _ =>
     remit (Event.logInfo ("Public channel created: " ++ channel_title)))
    (fun e => rthrow (Exc.setupError ("Failed to create public channel: " ++ excStr e)))

/-- The except clauses of the username step (lines 108-111). -/
def step3_handler (public_username : String) (e : Exc) : Res Unit :=
  match e with
  | Exc.usernameOccupied =>
      rthrow (Exc.setupError ("Username " ++ apos ++ public_username ++ apos ++ " is already taken"))
  | e => rthrow (Exc.setupError ("Failed to set username: " ++ excStr e))

/-- Step 3 (lines 101-111): claim the username on the public channel;
UsernameOccupiedError maps to the already-taken message, anything else to
the generic assignment failure. -/
def step3 (env : Env) (public_username : String) : Res Unit :=
  rcatch
    (rbind (remit Event.callUpdateUsername) fun _ =>
     rbind (rlift env.updateUsername) fun _ =>
     remit (Event.logInfo ("Username set for public channel: @" ++ public_username)))
    (step3_handler public_username)

/-- The except clauses of the admin step (lines 142-147). -/
def step4_handler (e : Exc) : Res Unit :=
  match e with
  | Exc.chatAdminRequired =>
      rthrow (Exc.setupError ("You don" ++ apos ++ "t have sufficient rights to add admins"))
  | Exc.adminsTooMuch =>
      rthrow (Exc.setupError "This channel/group has too many admins already")
  | e => rthrow (Exc.setupError ("Failed to set up Safeguard bot: " ++ excStr e))

/-- Step 4 (lines 113-147): resolve the bot, grant admin rights in the
group, verify, grant in the channel, verify; ChatAdminRequiredError and
AdminsTooMuchError are mapped specifically, every other exception —
including the SafeguardSetupError from verify_admin_rights — is wrapped
into the generic grant-failure message. -/
def step4 (env : Env) : Res Unit :=
  rcatch
    (rbind (remit Event.callGetInputEntity) fun _ =>
     rbind (rlift env.getInputEntity) fun _ =>
     rbind (remit (Event.callEditAdmin Target.group)) fun _ =>
     rbind (rlift env.editAdminGroup) fun _ =>
     rbind (verify_admin_rights env.getParticipantGroup Target.group) fun _ =>
     rbind (remit (Event.logInfo "Safeguard bot added as admin to private group")) fun _ =>
     rbind (remit (Event.callEditAdmin Target.channel)) fun _ =>
     rbind (rlift env.editAdminChannel) fun _ =>
     rbind (verify_admin_rights env.getParticipantChannel Target.channel) fun _ =>
     remit (Event.logInfo "Safeguard bot added as admin to public channel"))
    step4_handler

/-- The polling loop of step 5 (lines 159-169): while retries remain,
sleep 2 seconds, read the group's single most recent message, test whether
its body contains the bot's name (a body of None makes the Python `in`
test raise TypeError), stop on the first match. -/
def pollLoop (f : Nat → Option Msg) : Nat → Nat → Res (Option Msg)
  | 0, _ => rpure none
  | Nat.succ r, attempt =>
    rbind (remit (Event.sleep 2)) fun _ =>
    rbind (remit (Event.checkLatest attempt)) fun _ =>
    match f attempt with
    | none => pollLoop f r (attempt + 1)
    | some m =>
      match m.body with
      | none =>
          rthrow (Exc.typeError ("argument of type " ++ apos ++ "NoneType" ++ apos ++ " is not iterable"))
      | some b =>
        if containsSub b botName then rpure (some m)
        else pollLoop f r (attempt + 1)

/-- What step 5 does after the poll (lines 171-176): raise the
not-received message when no message matched, otherwise forward the
matched message to the channel. -/
def relayPart (env : Env) : Option Msg → Res Unit
  | none => rthrow (Exc.setupError "Failed to get setup message from Safeguard bot")
  | some m =>
    rbind (remit (Event.callForward m.id)) fun _ =>
    rbind (rlift env.forward) fun _ =>
    remit (Event.logInfo "Setup message forwarded to public channel")

/-- The except clause of the setup-message step (lines 178-179): every
exception — including the not-received SafeguardSetupError raised inside
the same try — is wrapped into the generic handling-failure message. -/
def step5_handler (e : Exc) : Res Unit :=
  rthrow (Exc.setupError ("Failed during setup message handling: " ++ excStr e))

/-- Step 5 (lines 149-179): send the setup command, poll up to 3 times for
the bot's reply, forward the first matching message to the channel. -/
def step5 (env : Env) : Res Unit :=
  rcatch
    (rbind (remit (Event.callSendMessage setupCommand)) fun _ =>
     rbind (rlift env.sendMessage) fun _ =>
     rbind (remit (Event.logInfo "Setup command sent to private group")) fun _ =>
     rbind (pollLoop env.latestMessage 3 0) fun setup_message =>
     relayPart env setup_message)
    step5_handler

/-- Step 6 (lines 181-200): export the invite link for the private group. -/
def step6 (env : Env) : Res String :=
  rcatch
    (rbind (remit Event.callExportInvite) fun _ =>
     rbind (rlift env.exportInvite) fun link =>
     rbind (remit (Event.logInfo "Setup completed successfully!")) fun _ =>
     rpure link)
    (fun e => rthrow (Exc.setupError ("Failed to generate invite links: " ++ excStr e)))

/-- The authorization check at lines 70-71. -/
def authCheck (env : Env) : Res Unit :=
  if env.isAuthorized then rpure ()
  else rthrow (Exc.setupError "User not authorized. Please run the script with an authorized session.")

/-- The body of the big try of setup_safeguard_system (lines 66-200):
start the client, check authorization, then the six wrapped blocks in
order; every block runs only when everything before it succeeded. -/
def inner_body (env : Env) (public_username group_title channel_title : String) : Res String :=
  rbind (rlift env.startResult) fun _ =>
  rbind (authCheck env) fun _ =>
  rbind (remit (Event.logInfo "Starting Safeguard setup process")) fun _ =>
  rbind (step1 env group_title) fun _ =>
  rbind (step2 env channel_title) fun _ =>
  rbind (step3 env public_username) fun _ =>
  rbind (step4 env) fun _ =>
  rbind (step5 env) fun _ =>
  step6 env

/-- The top-level except clauses (lines 202-207): FloodWaitError is logged
and mapped to the rate-limit message; any other exception is logged as
unexpected and re-raised unchanged. -/
def top_handler : Exc → Res String
  | Exc.floodWait s =>
    rbind (remit (Event.logError ("Hit rate limit. Please wait " ++ toString s ++ " seconds"))) fun _ =>
    rthrow (Exc.setupError ("Rate limit hit. Please wait " ++ toString s ++ " seconds before trying again"))
  | e =>
    rbind (remit (Event.logError ("Unexpected error: " ++ excStr e))) fun _ =>
    rthrow e

/-- setup_safeguard_system (src/script.py lines 53-210): the full run —
body, top-level except clauses, and the finally block that disconnects the
client. -/
def setup_safeguard_system (env : Env) (public_username group_title channel_title : String) : Res String :=
  rfinally
    (rcatch (inner_body env public_username group_title channel_title) top_handler)
    (remit Event.disconnect)

/-- Event classifiers used to state trace properties. -/
def Event.isInfo : Event → Bool
  | Event.logInfo _ => true
  | _ => false

def Event.isErr : Event → Bool
  | Event.logError _ => true
  | _ => false

def Event.isDisconnect : Event → Bool
  | Event.disconnect => true
  | _ => false

def Event.isSleep : Event → Bool
  | Event.sleep _ => true
  | _ => false

def Event.isCheck : Event → Bool
  | Event.checkLatest _ => true
  | _ => false

def Event.isForward : Event → Bool
  | Event.callForward _ => true
  | _ => false

def Event.isEdit : Event → Bool
  | Event.callEditAdmin _ => true
  | _ => false

/-- A poll attempt that misses: either the group reports no message, or
the latest message has a body that does not contain the bot's name. -/
def attemptMiss (f : Nat → Option Msg) (i : Nat) : Prop :=
  f i = none ∨ ∃ m b, f i = some m ∧ m.body = some b ∧ containsSub b botName = false

/-- Every check event in a trace is immediately preceded by a 2-second
sleep event. -/
def checksPaused : List Event → Bool
  | [] => true
  | Event.checkLatest _ :: _ => false
  | Event.sleep s :: Event.checkLatest _ :: rest => (s == 2) && checksPaused rest
  | _ :: rest => checksPaused rest

/-- Pure mirror of pollLoop's outcome. -/
def pollRes (f : Nat → Option Msg) : Nat → Nat → Except Exc (Option Msg)
  | 0, _ => Except.ok none
  | Nat.succ r, attempt =>
    match f attempt with
    | none => pollRes f r (attempt + 1)
    | some m =>
      match m.body with
      | none =>
          Except.error (Exc.typeError ("argument of type " ++ apos ++ "NoneType" ++ apos ++ " is not iterable"))
      | some b =>
        if containsSub b botName then Except.ok (some m) else pollRes f r (attempt + 1)

/-- Pure mirror of pollLoop's emitted trace. -/
def pollTr (f : Nat → Option Msg) : Nat → Nat → List Event
  | 0, _ => []
  | Nat.succ r, attempt =>
    Event.sleep 2 :: Event.checkLatest attempt ::
    (match f attempt with
     | none => pollTr f r (attempt + 1)
     | some m =>
       match m.body with
       | none => []
       | some b =>
         if containsSub b botName then [] else pollTr f r (attempt + 1))

/-- Pure mirror of verify_admin_rights' outcome. -/
def verifyRes : Except Exc ParticipantRec → Except Exc Bool
  | Except.ok p =>
    if isAdminRec p then Except.ok true
    else Except.error (Exc.setupError "Error verifying admin rights: Safeguard bot is not an admin")
  | Except.error Exc.userNotParticipant =>
    Except.error (Exc.setupError "Safeguard bot is not in the channel/group")
  | Except.error e =>
    Except.error (Exc.setupError ("Error verifying admin rights: " ++ excStr e))

/-- A fully cooperative environment: every remote call succeeds, the bot
shows up as an admin participant, and the bot's reply (whose body contains
the bot's name) is the group's latest message on the second poll attempt. -/
def envHappy : Env :=
  { startResult := Except.ok ()
    isAuthorized := true
    createGroup := Except.ok 1001
    createChannel := Except.ok 1002
    updateUsername := Except.ok ()
    getInputEntity := Except.ok 42
    editAdminGroup := Except.ok ()
    editAdminChannel := Except.ok ()
    getParticipantGroup := Except.ok ParticipantRec.admin
    getParticipantChannel := Except.ok ParticipantRec.admin
    sendMessage := Except.ok ()
    latestMessage := fun n =>
      if n = 0 then some { id := 100, body := some "hi" }
      else some { id := 101, body := some "ok SafeguardRobot" }
    forward := Except.ok ()
    exportInvite := Except.ok "invite-link" }

/-- envHappy, but the requested username is already occupied. -/
def envTaken : Env := { envHappy with updateUsername := Except.error Exc.usernameOccupied }

/-- envHappy, but the bot's participant record in the group is a plain
member (present, not an admin). -/
def envNotAdmin : Env := { envHappy with getParticipantGroup := Except.ok ParticipantRec.member }

/-- envHappy, but the bot has no participant record in the group. -/
def envAbsent : Env := { envHappy with getParticipantGroup := Except.error Exc.userNotParticipant }

/-- envHappy, but the group-creation call hits a rate limit. -/
def envFloodStep : Env := { envHappy with createGroup := Except.error (Exc.floodWait 42) }

/-- envHappy, but the client start itself hits a rate limit. -/
def envFloodStart : Env := { envHappy with startResult := Except.error (Exc.floodWait 42) }

/-- envHappy, but the session is not authorized. -/
def envUnauthorized : Env := { envHappy with isAuthorized := false }

/-- envHappy, but no poll attempt ever sees a message mentioning the bot. -/
def envMiss : Env :=
  { envHappy with latestMessage := fun _ => some { id := 200, body := some "hi" } }

/-- envHappy, but the latest message at every poll attempt has no text
body (a media or service message). -/
def envNoBody : Env :=
  { envHappy with latestMessage := fun _ => some { id := 300, body := none } }

/- ----------------------------------------------------------------- -/
/- Combinator lemmas                                                  -/
/- ----------------------------------------------------------------- -/

@[simp] lemma snd_rpure {α : Type} (a : α) : (rpure a).2 = [] := rfl

@[simp] lemma fst_rpure {α : Type} (a : α) : (rpure a).1 = Except.ok a := rfl

@[simp] lemma snd_rthrow {α : Type} (e : Exc) : (rthrow e : Res α).2 = [] := rfl

@[simp] lemma fst_rthrow {α : Type} (e : Exc) : (rthrow e : Res α).1 = Except.error e := rfl

@[simp] lemma snd_remit (e : Event) : (remit e).2 = [e] := rfl

@[simp] lemma fst_remit (e : Event) : (remit e).1 = Except.ok () := rfl

@[simp] lemma snd_rlift {α : Type} (r : Except Exc α) : (rlift r).2 = [] := by
  cases r <;> rfl

@[simp] lemma fst_rlift {α : Type} (r : Except Exc α) : (rlift r).1 = r := by
  cases r <;> rfl

@[simp] lemma fst_rbind {α β : Type} (x : Res α) (f : α → Res β) :
    (rbind x f).1 = x.1.bind (fun a => (f a).1) := by
  obtain ⟨r, t⟩ := x
  cases r <;> rfl

lemma except_bind_eq_ok {ε α β : Type} (x : Except ε α) (g : α → Except ε β) (b : β) :
    x.bind g = Except.ok b ↔ ∃ a, x = Except.ok a ∧ g a = Except.ok b := by
  cases x <;> simp [Except.bind]

@[simp] lemma mem_rbind {α β : Type} (ev : Event) (x : Res α) (f : α → Res β) :
    ev ∈ (rbind x f).2 ↔ ev ∈ x.2 ∨ ∃ a, x.1 = Except.ok a ∧ ev ∈ (f a).2 := by
  obtain ⟨r, t⟩ := x
  cases r <;> simp [rbind]

@[simp] lemma mem_rcatch {α : Type} (ev : Event) (x : Res α) (h : Exc → Res α) :
    ev ∈ (rcatch x h).2 ↔ ev ∈ x.2 ∨ ∃ e, x.1 = Except.error e ∧ ev ∈ (h e).2 := by
  obtain ⟨r, t⟩ := x
  cases r <;> simp [rcatch]

lemma fst_rcatch_ok {α : Type} {x : Res α} {h : Exc → Res α} {a : α}
    (hx : x.1 = Except.ok a) : (rcatch x h).1 = Except.ok a := by
  obtain ⟨r, t⟩ := x
  cases r with
  | ok b => cases hx; rfl
  | error e => exact absurd hx (by simp)

lemma fst_rcatch_err {α : Type} {x : Res α} {h : Exc → Res α} {e : Exc}
    (hx : x.1 = Except.error e) : (rcatch x h).1 = (h e).1 := by
  obtain ⟨r, t⟩ := x
  cases r with
  | ok b => exact absurd hx (by simp)
  | error e2 => cases hx; rfl

@[simp] lemma fst_rfinally_remit {α : Type} (x : Res α) (d : Event) :
    (rfinally x (remit d)).1 = x.1 := by
  obtain ⟨r, t⟩ := x
  cases r <;> rfl

@[simp] lemma snd_rfinally_remit {α : Type} (x : Res α) (d : Event) :
    (rfinally x (remit d)).2 = x.2 ++ [d] := by
  obtain ⟨r, t⟩ := x
  cases r <;> rfl

@[simp] lemma snd_authCheck (env : Env) : (authCheck env).2 = [] := by
  unfold authCheck
  split <;> rfl

@[simp] lemma fst_authCheck_ok (env : Env) (u : Unit) :
    (authCheck env).1 = Except.ok u ↔ env.isAuthorized = true := by
  unfold authCheck
  cases h : env.isAuthorized <;> simp [rpure, rthrow]

/- ----------------------------------------------------------------- -/
/- Poll-loop lemmas                                                   -/
/- ----------------------------------------------------------------- -/

lemma pollLoop_eq (f : Nat → Option Msg) (r a : Nat) :
    pollLoop f r a = (pollRes f r a, pollTr f r a) := by
  induction r generalizing a with
  | zero => rfl
  | succ r ih =>
    simp only [pollLoop, pollRes, pollTr, rbind, remit]
    cases hf : f a with
    | none => simp [ih]
    | some m =>
      cases hb : m.body with
      | none => simp [hb, rthrow]
      | some b =>
        by_cases hc : containsSub b botName
        · simp [hb, hc, rpure]
        · simp [hb, hc, ih]

lemma mem_pollTr {ev : Event} {f : Nat → Option Msg} {r a : Nat}
    (h : ev ∈ pollTr f r a) : Event.isSleep ev = true ∨ Event.isCheck ev = true := by
  induction r generalizing a with
  | zero => simp [pollTr] at h
  | succ r ih =>
    cases hf : f a with
    | none =>
      simp only [pollTr, hf, List.mem_cons] at h
      rcases h with h | h | h
      · subst h; left; rfl
      · subst h; right; rfl
      · exact ih h
    | some m =>
      cases hb : m.body with
      | none =>
        simp only [pollTr, hf, hb, List.mem_cons] at h
        rcases h with h | h | h
        · subst h; left; rfl
        · subst h; right; rfl
        · simp at h
      | some b =>
        by_cases hc : containsSub b botName
        · simp only [pollTr, hf, hb, hc, if_true, List.mem_cons] at h
          rcases h with h | h | h
          · subst h; left; rfl
          · subst h; right; rfl
          · simp at h
        · simp only [pollTr, hf, hb, hc, if_false, List.mem_cons] at h
          rcases h with h | h | h
          · subst h; left; rfl
          · subst h; right; rfl
          · exact ih h

@[simp] lemma pollTr_no_disconnect (f : Nat → Option Msg) (r a : Nat) :
    Event.disconnect ∉ pollTr f r a := by
  intro h
  rcases mem_pollTr h with h2 | h2 <;> simp [Event.isSleep, Event.isCheck] at h2

@[simp] lemma pollTr_no_forward (f : Nat → Option Msg) (r a i : Nat) :
    Event.callForward i ∉ pollTr f r a := by
  intro h
  rcases mem_pollTr h with h2 | h2 <;> simp [Event.isSleep, Event.isCheck] at h2

@[simp] lemma pollTr_no_export (f : Nat → Option Msg) (r a : Nat) :
    Event.callExportInvite ∉ pollTr f r a := by
  intro h
  rcases mem_pollTr h with h2 | h2 <;> simp [Event.isSleep, Event.isCheck] at h2

@[simp] lemma pollTr_no_edit (f : Nat → Option Msg) (r a : Nat) (t : Target) :
    Event.callEditAdmin t ∉ pollTr f r a := by
  intro h
  rcases mem_pollTr h with h2 | h2 <;> simp [Event.isSleep, Event.isCheck] at h2

@[simp] lemma pollTr_no_send (f : Nat → Option Msg) (r a : Nat) (s : String) :
    Event.callSendMessage s ∉ pollTr f r a := by
  intro h
  rcases mem_pollTr h with h2 | h2 <;> simp [Event.isSleep, Event.isCheck] at h2

@[simp] lemma pollTr_no_createChannel (f : Nat → Option Msg) (r a : Nat) :
    Event.callCreateChannel ∉ pollTr f r a := by
  intro h
  rcases mem_pollTr h with h2 | h2 <;> simp [Event.isSleep, Event.isCheck] at h2

@[simp] lemma pollTr_no_updateUsername (f : Nat → Option Msg) (r a : Nat) :
    Event.callUpdateUsername ∉ pollTr f r a := by
  intro h
  rcases mem_pollTr h with h2 | h2 <;> simp [Event.isSleep, Event.isCheck] at h2

lemma pollTr_countP_zero (p : Event → Bool) (f : Nat → Option Msg) (r a : Nat)
    (hs : ∀ s, p (Event.sleep s) = false) (hc : ∀ i, p (Event.checkLatest i) = false) :
    (pollTr f r a).countP p = 0 := by
  rw [List.countP_eq_zero]
  intro ev hev
  rcases mem_pollTr hev with h2 | h2
  · cases ev <;> simp [Event.isSleep] at h2 ⊢ <;> simp [hs, hc]
  · cases ev <;> simp [Event.isCheck] at h2 ⊢ <;> simp [hs, hc]

lemma pollTr_countP_check_le (f : Nat → Option Msg) (r a : Nat) :
    (pollTr f r a).countP Event.isCheck ≤ r := by
  induction r generalizing a with
  | zero => simp [pollTr]
  | succ r ih =>
    cases hf : f a with
    | none =>
      have h2 := ih (a + 1)
      simp [pollTr, hf, Event.isCheck, Event.isSleep, List.countP_cons] <;> omega
    | some m =>
      cases hb : m.body with
      | none =>
        simp [pollTr, hf, hb, Event.isCheck, Event.isSleep, List.countP_cons]
      | some b =>
        by_cases hcs : containsSub b botName
        · simp [pollTr, hf, hb, hcs, Event.isCheck, Event.isSleep, List.countP_cons]
        · have h2 := ih (a + 1)
          simp [pollTr, hf, hb, hcs, Event.isCheck, Event.isSleep, List.countP_cons] <;> omega

lemma pollRes_miss (f : Nat → Option Msg) (r a : Nat) (h : attemptMiss f a) :
    pollRes f (r + 1) a = pollRes f r (a + 1) ∧
    pollTr f (r + 1) a = Event.sleep 2 :: Event.checkLatest a :: pollTr f r (a + 1) := by
  rcases h with h | ⟨m, b, hm, hb, hc⟩
  · simp [pollRes, pollTr, h]
  · simp [pollRes, pollTr, hm, hb, hc]

lemma pollRes_hit (f : Nat → Option Msg) (r a : Nat) (m : Msg) (b : String)
    (hm : f a = some m) (hb : m.body = some b) (hc : containsSub b botName = true) :
    pollRes f (r + 1) a = Except.ok (some m) ∧
    pollTr f (r + 1) a = [Event.sleep 2, Event.checkLatest a] := by
  simp [pollRes, pollTr, hm, hb, hc]

lemma pollRes_badBody (f : Nat → Option Msg) (r a : Nat) (m : Msg)
    (hm : f a = some m) (hb : m.body = none) :
    pollRes f (r + 1) a =
      Except.error (Exc.typeError ("argument of type " ++ apos ++ "NoneType" ++ apos ++ " is not iterable")) ∧
    pollTr f (r + 1) a = [Event.sleep 2, Event.checkLatest a] := by
  simp [pollRes, pollTr, hm, hb]

/- ----------------------------------------------------------------- -/
/- verify_admin_rights lemmas                                         -/
/- ----------------------------------------------------------------- -/

lemma verify_pair (lookup : Except Exc ParticipantRec) (t : Target) :
    verify_admin_rights lookup t = (verifyRes lookup, [Event.callGetParticipant t]) := by
  cases lookup with
  | ok p =>
    by_cases h : isAdminRec p = true
    · simp [verify_admin_rights, verifyRes, rcatch, rbind, remit, rlift, rthrow, rpure, h]
    · rw [Bool.not_eq_true] at h
      simp [verify_admin_rights, verifyRes, rcatch, rbind, remit, rlift, rthrow, rpure, h, excStr]
  | error e =>
    cases e <;>
      simp [verify_admin_rights, verifyRes, rcatch, rbind, remit, rlift, rthrow, rpure]

@[simp] lemma snd_verify (lookup : Except Exc ParticipantRec) (t : Target) :
    (verify_admin_rights lookup t).2 = [Event.callGetParticipant t] := by
  rw [verify_pair]

@[simp] lemma fst_verify (lookup : Except Exc ParticipantRec) (t : Target) :
    (verify_admin_rights lookup t).1 = verifyRes lookup := by
  rw [verify_pair]

@[simp] lemma verifyRes_eq_ok (lookup : Except Exc ParticipantRec) (b : Bool) :
    verifyRes lookup = Except.ok b ↔
      b = true ∧ ∃ p, lookup = Except.ok p ∧ isAdminRec p = true := by
  cases lookup with
  | ok p =>
    by_cases h : isAdminRec p = true
    · constructor
      · intro hb
        simp only [verifyRes, h, if_true, Except.ok.injEq] at hb
        exact ⟨hb.symm, p, rfl, h⟩
      · rintro ⟨hb, _⟩
        subst hb
        simp [verifyRes, h]
    · rw [Bool.not_eq_true] at h
      simp [verifyRes, h]
  | error e => cases e <;> simp [verifyRes]

/- ----------------------------------------------------------------- -/
/- Except.bind and handler lemmas                                     -/
/- ----------------------------------------------------------------- -/

@[simp] lemma except_ok_bind {ε α β : Type} (a : α) (g : α → Except ε β) :
    (Except.ok a : Except ε α).bind g = g a := rfl

@[simp] lemma except_error_bind {ε α β : Type} (e : ε) (g : α → Except ε β) :
    (Except.error e : Except ε α).bind g = Except.error e := rfl

@[simp] lemma except_bind_ok_iff {ε α β : Type} (x : Except ε α) (g : α → Except ε β) (b : β) :
    x.bind g = Except.ok b ↔ ∃ a, x = Except.ok a ∧ g a = Except.ok b := by
  cases x <;> simp

lemma fst_rcatch_ok_iff {α : Type} (x : Res α) (h : Exc → Res α) (a : α) :
    (rcatch x h).1 = Except.ok a ↔
      x.1 = Except.ok a ∨ ∃ e, x.1 = Except.error e ∧ (h e).1 = Except.ok a := by
  obtain ⟨r, t⟩ := x
  cases r <;> simp [rcatch]

@[simp] lemma snd_step3_handler (pu : String) (e : Exc) : (step3_handler pu e).2 = [] := by
  cases e <;> rfl

@[simp] lemma fst_step3_handler_ne_ok (pu : String) (e : Exc) (u : Unit) :
    ¬((step3_handler pu e).1 = Except.ok u) := by
  cases e <;> simp [step3_handler, rthrow]

@[simp] lemma snd_step4_handler (e : Exc) : (step4_handler e).2 = [] := by
  cases e <;> rfl

@[simp] lemma fst_step4_handler_ne_ok (e : Exc) (u : Unit) :
    ¬((step4_handler e).1 = Except.ok u) := by
  cases e <;> simp [step4_handler, rthrow]

@[simp] lemma snd_step5_handler (e : Exc) : (step5_handler e).2 = [] := rfl

@[simp] lemma fst_step5_handler_ne_ok (e : Exc) (u : Unit) :
    ¬((step5_handler e).1 = Except.ok u) := by
  simp [step5_handler, rthrow]

lemma top_handler_snd_shape (e : Exc) : ∃ s, (top_handler e).2 = [Event.logError s] := by
  cases e <;> exact ⟨_, rfl⟩

lemma not_mem_top_handler {ev : Event} (h : ∀ s, ev ≠ Event.logError s) (e : Exc) :
    ev ∉ (top_handler e).2 := by
  obtain ⟨s, hs⟩ := top_handler_snd_shape e
  rw [hs]
  simp [h s]

@[simp] lemma fst_top_handler_ne_ok (e : Exc) (s : String) :
    ¬((top_handler e).1 = Except.ok s) := by
  cases e <;> simp [top_handler, rbind, remit, rthrow]

@[simp] lemma th_no_createGroup (e : Exc) : Event.callCreateGroup ∉ (top_handler e).2 :=
  not_mem_top_handler (fun s => by simp) e

@[simp] lemma th_no_createChannel (e : Exc) : Event.callCreateChannel ∉ (top_handler e).2 :=
  not_mem_top_handler (fun s => by simp) e

@[simp] lemma th_no_updateUsername (e : Exc) : Event.callUpdateUsername ∉ (top_handler e).2 :=
  not_mem_top_handler (fun s => by simp) e

@[simp] lemma th_no_getInputEntity (e : Exc) : Event.callGetInputEntity ∉ (top_handler e).2 :=
  not_mem_top_handler (fun s => by simp) e

@[simp] lemma th_no_editAdmin (e : Exc) (t : Target) : Event.callEditAdmin t ∉ (top_handler e).2 :=
  not_mem_top_handler (fun s => by simp) e

@[simp] lemma th_no_getParticipant (e : Exc) (t : Target) :
    Event.callGetParticipant t ∉ (top_handler e).2 :=
  not_mem_top_handler (fun s => by simp) e

@[simp] lemma th_no_send (e : Exc) (s2 : String) : Event.callSendMessage s2 ∉ (top_handler e).2 :=
  not_mem_top_handler (fun s => by simp) e

@[simp] lemma th_no_forward (e : Exc) (i : Nat) : Event.callForward i ∉ (top_handler e).2 :=
  not_mem_top_handler (fun s => by simp) e

@[simp] lemma th_no_export (e : Exc) : Event.callExportInvite ∉ (top_handler e).2 :=
  not_mem_top_handler (fun s => by simp) e

@[simp] lemma th_no_disconnect (e : Exc) : Event.disconnect ∉ (top_handler e).2 :=
  not_mem_top_handler (fun s => by simp) e

@[simp] lemma th_no_logInfo (e : Exc) (s2 : String) : Event.logInfo s2 ∉ (top_handler e).2 :=
  not_mem_top_handler (fun s => by simp) e

/- ----------------------------------------------------------------- -/
/- Per-step characterizations                                         -/
/- ----------------------------------------------------------------- -/

@[simp] lemma exists_ok_unit {ε : Type} (x : Except ε Unit) :
    (∃ u, x = Except.ok u) ↔ x = Except.ok () := by
  constructor
  · rintro ⟨⟨⟩, h⟩
    exact h
  · intro h
    exact ⟨(), h⟩

@[simp] lemma step1_fst (env : Env) (gt : String) (u : Unit) :
    (step1 env gt).1 = Except.ok u ↔ ∃ g, env.createGroup = Except.ok g := by
  rw [step1, fst_rcatch_ok_iff]
  simp

@[simp] lemma mem_step1 (env : Env) (gt : String) (ev : Event) :
    ev ∈ (step1 env gt).2 ↔
      ev = Event.logInfo "Creating private group..." ∨ ev = Event.callCreateGroup ∨
        ((∃ g, env.createGroup = Except.ok g) ∧
          ev = Event.logInfo ("Private group created: " ++ gt)) := by
  cases h : env.createGroup <;>
    simp [step1, rcatch, rbind, rlift, remit, rthrow, h]

@[simp] lemma step2_fst (env : Env) (ct : String) (u : Unit) :
    (step2 env ct).1 = Except.ok u ↔ ∃ c, env.createChannel = Except.ok c := by
  rw [step2, fst_rcatch_ok_iff]
  simp

@[simp] lemma mem_step2 (env : Env) (ct : String) (ev : Event) :
    ev ∈ (step2 env ct).2 ↔
      ev = Event.logInfo "Creating public channel..." ∨ ev = Event.callCreateChannel ∨
        ((∃ c, env.createChannel = Except.ok c) ∧
          ev = Event.logInfo ("Public channel created: " ++ ct)) := by
  cases h : env.createChannel <;>
    simp [step2, rcatch, rbind, rlift, remit, rthrow, h]

@[simp] lemma step3_fst (env : Env) (pu : String) (u : Unit) :
    (step3 env pu).1 = Except.ok u ↔ env.updateUsername = Except.ok () := by
  rw [step3, fst_rcatch_ok_iff]
  simp

@[simp] lemma mem_step3 (env : Env) (pu : String) (ev : Event) :
    ev ∈ (step3 env pu).2 ↔
      ev = Event.callUpdateUsername ∨
        (env.updateUsername = Except.ok () ∧
          ev = Event.logInfo ("Username set for public channel: @" ++ pu)) := by
  cases h : env.updateUsername with
  | ok u2 =>
    cases u2
    simp [step3, rcatch, rbind, rlift, remit, rthrow, h]
  | error e => simp [step3, rcatch, rbind, rlift, remit, rthrow, h]

@[simp] lemma step4_fst (env : Env) (u : Unit) :
    (step4 env).1 = Except.ok u ↔
      (∃ b, env.getInputEntity = Except.ok b) ∧ env.editAdminGroup = Except.ok () ∧
      (∃ p, env.getParticipantGroup = Except.ok p ∧ isAdminRec p = true) ∧
      env.editAdminChannel = Except.ok () ∧
      (∃ q, env.getParticipantChannel = Except.ok q ∧ isAdminRec q = true) := by
  rw [step4, fst_rcatch_ok_iff]
  simp

@[simp] lemma mem_step4 (env : Env) (ev : Event) :
    ev ∈ (step4 env).2 ↔
      ev = Event.callGetInputEntity ∨
      ((∃ b, env.getInputEntity = Except.ok b) ∧
        (ev = Event.callEditAdmin Target.group ∨
         (env.editAdminGroup = Except.ok () ∧
           (ev = Event.callGetParticipant Target.group ∨
            ((∃ p, env.getParticipantGroup = Except.ok p ∧ isAdminRec p = true) ∧
              (ev = Event.logInfo "Safeguard bot added as admin to private group" ∨
               ev = Event.callEditAdmin Target.channel ∨
               (env.editAdminChannel = Except.ok () ∧
                 (ev = Event.callGetParticipant Target.channel ∨
                  ((∃ q, env.getParticipantChannel = Except.ok q ∧ isAdminRec q = true) ∧
                    ev = Event.logInfo "Safeguard bot added as admin to public channel"))))))))) := by
  rw [step4]
  simp

@[simp] lemma relayPart_fst (env : Env) (o : Option Msg) (u : Unit) :
    (relayPart env o).1 = Except.ok u ↔ ∃ m, o = some m ∧ env.forward = Except.ok () := by
  cases o with
  | none => simp [relayPart, rthrow]
  | some m =>
    cases hf : env.forward with
    | ok u2 =>
      cases u2
      simp [relayPart, rbind, rlift, remit, hf]
    | error e => simp [relayPart, rbind, rlift, remit, rthrow, hf]

@[simp] lemma mem_relayPart (env : Env) (o : Option Msg) (ev : Event) :
    ev ∈ (relayPart env o).2 ↔
      ∃ m, o = some m ∧
        (ev = Event.callForward m.id ∨
          (env.forward = Except.ok () ∧
            ev = Event.logInfo "Setup message forwarded to public channel")) := by
  cases o with
  | none => simp [relayPart, rthrow]
  | some m =>
    cases hf : env.forward with
    | ok u2 =>
      cases u2
      simp [relayPart, rbind, rlift, remit, hf]
    | error e => simp [relayPart, rbind, rlift, remit, rthrow, hf]

@[simp] lemma exists_ok_some_collapse {ε α : Type} (x : Except ε (Option α)) (P : α → Prop) :
    (∃ o, x = Except.ok o ∧ ∃ m, o = some m ∧ P m) ↔ ∃ m, x = Except.ok (some m) ∧ P m := by
  constructor
  · rintro ⟨o, hx, m, rfl, hp⟩
    exact ⟨m, hx, hp⟩
  · rintro ⟨m, hx, hp⟩
    exact ⟨some m, hx, m, rfl, hp⟩

@[simp] lemma step5_fst (env : Env) (u : Unit) :
    (step5 env).1 = Except.ok u ↔
      env.sendMessage = Except.ok () ∧
      (∃ m, pollRes env.latestMessage 3 0 = Except.ok (some m)) ∧
      env.forward = Except.ok () := by
  rw [step5, fst_rcatch_ok_iff]
  cases hs : env.sendMessage with
  | error e => simp [rbind, rlift, remit, hs, pollLoop_eq]
  | ok u2 =>
    cases u2
    cases hp : pollRes env.latestMessage 3 0 with
    | error e => simp [rbind, rlift, remit, hs, hp, pollLoop_eq]
    | ok o =>
      cases o with
      | none => simp [rbind, rlift, remit, hs, hp, pollLoop_eq]
      | some m =>
        cases hf : env.forward with
        | ok u3 =>
          cases u3
          simp [rbind, rlift, remit, hs, hp, hf, pollLoop_eq]
        | error e => simp [rbind, rlift, remit, hs, hp, hf, pollLoop_eq]

@[simp] lemma mem_step5 (env : Env) (ev : Event) :
    ev ∈ (step5 env).2 ↔
      ev = Event.callSendMessage setupCommand ∨
      (env.sendMessage = Except.ok () ∧
        (ev = Event.logInfo "Setup command sent to private group" ∨
         ev ∈ pollTr env.latestMessage 3 0 ∨
         (∃ m, pollRes env.latestMessage 3 0 = Except.ok (some m) ∧
           (ev = Event.callForward m.id ∨
            (env.forward = Except.ok () ∧
              ev = Event.logInfo "Setup message forwarded to public channel"))))) := by
  rw [step5]
  simp [pollLoop_eq]

@[simp] lemma step6_fst (env : Env) (s : String) :
    (step6 env).1 = Except.ok s ↔ env.exportInvite = Except.ok s := by
  rw [step6, fst_rcatch_ok_iff]
  simp [rthrow]

@[simp] lemma mem_step6 (env : Env) (ev : Event) :
    ev ∈ (step6 env).2 ↔
      ev = Event.callExportInvite ∨
        (∃ s, env.exportInvite = Except.ok s ∧
          ev = Event.logInfo "Setup completed successfully!") := by
  cases h : env.exportInvite <;>
    simp [step6, rcatch, rbind, rlift, remit, rthrow, h]

/- ----------------------------------------------------------------- -/
/- Run-level lemmas                                                   -/
/- ----------------------------------------------------------------- -/

@[simp] lemma run_fst (env : Env) (pu gt ct : String) :
    (setup_safeguard_system env pu gt ct).1 =
      (rcatch (inner_body env pu gt ct) top_handler).1 := by
  unfold setup_safeguard_system
  simp

@[simp] lemma run_snd (env : Env) (pu gt ct : String) :
    (setup_safeguard_system env pu gt ct).2 =
      (rcatch (inner_body env pu gt ct) top_handler).2 ++ [Event.disconnect] := by
  unfold setup_safeguard_system
  simp

@[simp] lemma isDisconnect_iff (ev : Event) :
    Event.isDisconnect ev = true ↔ ev = Event.disconnect := by
  cases ev <;> simp [Event.isDisconnect]

/- ----------------------------------------------------------------- -/
/- Claims                                                             -/
/- ----------------------------------------------------------------- -/

/-- C2: Every run of the sequencer — reaching Done or failing at any step
with any error kind — performs exactly one disconnect of the session: the
trace of every run contains exactly one disconnect event, emitted by the
finally block. -/
theorem C2_session_released_once (env : Env) (pu gt ct : String) :
    ((setup_safeguard_system env pu gt ct).2.countP Event.isDisconnect) = 1 := by
  rw [run_snd, List.countP_append]
  have hno : Event.disconnect ∉ (rcatch (inner_body env pu gt ct) top_handler).2 := by
    simp [inner_body]
  have h0 : (rcatch (inner_body env pu gt ct) top_handler).2.countP Event.isDisconnect = 0 := by
    rw [List.countP_eq_zero]
    intro ev hev
    intro hd
    rw [isDisconnect_iff] at hd
    exact hno (hd ▸ hev)
  rw [h0]
  simp [Event.isDisconnect]

/-- C3: Claiming a username that is already reserved fails with exactly
the UsernameTaken error (the already-taken message naming that username),
never with the generic assignment-failure message: the step's result and
trace are computed exactly. -/
theorem C3_username_taken (env : Env) (u : String)
    (h : env.updateUsername = Except.error Exc.usernameOccupied) :
    step3 env u =
      (Except.error (Exc.setupError ("Username " ++ apos ++ u ++ apos ++ " is already taken")),
       [Event.callUpdateUsername]) := by
  simp [step3, rcatch, rbind, rlift, remit, h, step3_handler]

/-- Witness for C3 at a concrete occupied username. -/
theorem C3_username_taken_witness :
    envTaken.updateUsername = Except.error Exc.usernameOccupied ∧
    step3 envTaken "myportal" =
      (Except.error (Exc.setupError ("Username " ++ apos ++ "myportal" ++ apos ++ " is already taken")),
       [Event.callUpdateUsername]) :=
  ⟨rfl, C3_username_taken envTaken "myportal" rfl⟩

/-- C1: In every run each later step is executed only if every earlier
step returned successfully: a call event belonging to a later step appears
in the trace only when the calls of all earlier steps succeeded; in
particular, when claiming the username fails because it is occupied, no
admin-grant call is ever made and the remaining steps are skipped. -/
theorem C1_steps_in_order (env : Env) (pu gt ct : String) :
    (Event.callCreateChannel ∈ (setup_safeguard_system env pu gt ct).2 →
       ∃ g, env.createGroup = Except.ok g) ∧
    (Event.callUpdateUsername ∈ (setup_safeguard_system env pu gt ct).2 →
       (∃ g, env.createGroup = Except.ok g) ∧ ∃ c, env.createChannel = Except.ok c) ∧
    (Event.callEditAdmin Target.group ∈ (setup_safeguard_system env pu gt ct).2 →
       env.updateUsername = Except.ok ()) ∧
    (Event.callEditAdmin Target.channel ∈ (setup_safeguard_system env pu gt ct).2 →
       env.editAdminGroup = Except.ok () ∧
         ∃ p, env.getParticipantGroup = Except.ok p ∧ isAdminRec p = true) ∧
    (Event.callSendMessage setupCommand ∈ (setup_safeguard_system env pu gt ct).2 →
       (∃ b, env.getInputEntity = Except.ok b) ∧ env.editAdminGroup = Except.ok () ∧
       (∃ p, env.getParticipantGroup = Except.ok p ∧ isAdminRec p = true) ∧
       env.editAdminChannel = Except.ok () ∧
       ∃ q, env.getParticipantChannel = Except.ok q ∧ isAdminRec q = true) ∧
    (∀ i, Event.callForward i ∈ (setup_safeguard_system env pu gt ct).2 →
       ∃ m, pollRes env.latestMessage 3 0 = Except.ok (some m) ∧ m.id = i) ∧
    (Event.callExportInvite ∈ (setup_safeguard_system env pu gt ct).2 →
       env.sendMessage = Except.ok () ∧
       (∃ m, pollRes env.latestMessage 3 0 = Except.ok (some m)) ∧
       env.forward = Except.ok ()) ∧
    (env.updateUsername = Except.error Exc.usernameOccupied →
       (∀ t, Event.callEditAdmin t ∉ (setup_safeguard_system env pu gt ct).2) ∧
       (∀ s, Event.callSendMessage s ∉ (setup_safeguard_system env pu gt ct).2) ∧
       (∀ i, Event.callForward i ∉ (setup_safeguard_system env pu gt ct).2) ∧
       Event.callExportInvite ∉ (setup_safeguard_system env pu gt ct).2) := by
  refine ⟨?_, ?_, ?_, ?_, ?_, ?_, ?_, ?_⟩
  · intro h
    rw [run_snd] at h
    simp [inner_body] at h
    tauto
  · intro h
    rw [run_snd] at h
    simp [inner_body] at h
    tauto
  · intro h
    rw [run_snd] at h
    simp [inner_body] at h
    tauto
  · intro h
    rw [run_snd] at h
    simp [inner_body] at h
    tauto
  · intro h
    rw [run_snd] at h
    simp [inner_body] at h
    tauto
  · intro i h
    rw [run_snd] at h
    simp [inner_body] at h
    tauto
  · intro h
    rw [run_snd] at h
    simp [inner_body] at h
    tauto
  · intro hu
    refine ⟨fun t => ?_, fun s => ?_, fun i => ?_, ?_⟩ <;>
      · intro h
        rw [run_snd] at h
        simp [inner_body, hu] at h

/-- Witness for C1 at the occupied-username environment: no group
admin-grant call appears in that run's trace. -/
theorem C1_steps_in_order_witness :
    Event.callEditAdmin Target.group ∉
      (setup_safeguard_system envTaken "myportal" "Guard Group" "Guard Channel").2 :=
  ((C1_steps_in_order envTaken "myportal" "Guard Group" "Guard Channel").2.2.2.2.2.2.2
    rfl).1 Target.group

/-- C4 counterexample: with the bot a plain member of the group, the
promote-and-verify step does not yield the distinct not-admin message but
the generic grant-failure message wrapping it; with the bot absent it
likewise yields the generic grant-failure message wrapping the
not-in-channel message. -/
theorem C4_distinct_kinds_counterexample :
    (step4 envNotAdmin).1 =
      Except.error (Exc.setupError
        "Failed to set up Safeguard bot: Error verifying admin rights: Safeguard bot is not an admin") ∧
    (step4 envNotAdmin).1 ≠ Except.error (Exc.setupError "Safeguard bot is not an admin") ∧
    (step4 envAbsent).1 =
      Except.error (Exc.setupError
        "Failed to set up Safeguard bot: Safeguard bot is not in the channel/group") ∧
    (step4 envAbsent).1 ≠ Except.error (Exc.setupError "Safeguard bot is not in the channel/group") := by
  refine ⟨?_, ?_, ?_, ?_⟩ <;> decide

/-- C4 amended: the two membership situations do produce the two distinct
detail messages, but each is wrapped by the enclosing generic handlers, so
the step surfaces the generic grant-failure kind carrying the distinct
message inside its detail (for both the group and the channel entity). -/
theorem C4_admin_verification_wrapped (env : Env)
    (hb : ∃ b, env.getInputEntity = Except.ok b)
    (hg : env.editAdminGroup = Except.ok ()) :
    ((∃ p, env.getParticipantGroup = Except.ok p ∧ isAdminRec p = false) →
       (step4 env).1 =
         Except.error (Exc.setupError
           "Failed to set up Safeguard bot: Error verifying admin rights: Safeguard bot is not an admin")) ∧
    (env.getParticipantGroup = Except.error Exc.userNotParticipant →
       (step4 env).1 =
         Except.error (Exc.setupError
           "Failed to set up Safeguard bot: Safeguard bot is not in the channel/group")) ∧
    ((∃ p, env.getParticipantGroup = Except.ok p ∧ isAdminRec p = true) →
      env.editAdminChannel = Except.ok () →
      (((∃ q, env.getParticipantChannel = Except.ok q ∧ isAdminRec q = false) →
         (step4 env).1 = Except.error (Exc.setupError
           "Failed to set up Safeguard bot: Error verifying admin rights: Safeguard bot is not an admin")) ∧
       (env.getParticipantChannel = Except.error Exc.userNotParticipant →
         (step4 env).1 = Except.error (Exc.setupError
           "Failed to set up Safeguard bot: Safeguard bot is not in the channel/group")))) := by
  obtain ⟨b, hb⟩ := hb
  refine ⟨?_, ?_, ?_⟩
  · rintro ⟨p, hp, hap⟩
    simp [step4, rcatch, rbind, rlift, remit, rthrow, verify_pair, verifyRes, step4_handler,
      excStr, hb, hg, hp, hap]
  · intro hp
    simp [step4, rcatch, rbind, rlift, remit, rthrow, verify_pair, verifyRes, step4_handler,
      excStr, hb, hg, hp]
  · rintro ⟨p, hp, hap⟩ hc
    refine ⟨?_, ?_⟩
    · rintro ⟨q, hq, haq⟩
      simp [step4, rcatch, rbind, rlift, remit, rthrow, verify_pair, verifyRes, step4_handler,
        excStr, hb, hg, hp, hap, hc, hq, haq]
    · intro hq
      simp [step4, rcatch, rbind, rlift, remit, rthrow, verify_pair, verifyRes, step4_handler,
        excStr, hb, hg, hp, hap, hc, hq]

/-- Witness for the amended C4 at the member-but-not-admin environment. -/
theorem C4_admin_verification_wrapped_witness :
    (step4 envNotAdmin).1 =
      Except.error (Exc.setupError
        "Failed to set up Safeguard bot: Error verifying admin rights: Safeguard bot is not an admin") :=
  (C4_admin_verification_wrapped envNotAdmin ⟨42, rfl⟩ rfl).1
    ⟨ParticipantRec.member, rfl, rfl⟩

/- ----------------------------------------------------------------- -/
/- step5 trace shapes                                                 -/
/- ----------------------------------------------------------------- -/

lemma step5_snd_senderr (env : Env) (e : Exc) (hs : env.sendMessage = Except.error e) :
    (step5 env).2 = [Event.callSendMessage setupCommand] := by
  simp [step5, rcatch, rbind, rlift, remit, rthrow, hs]

lemma step5_snd_nofind (env : Env) (hs : env.sendMessage = Except.ok ())
    (hp : (pollRes env.latestMessage 3 0).isOk = false ∨
          pollRes env.latestMessage 3 0 = Except.ok none) :
    (step5 env).2 =
      Event.callSendMessage setupCommand ::
        Event.logInfo "Setup command sent to private group" ::
          pollTr env.latestMessage 3 0 := by
  rcases hp with hp | hp
  · cases hp2 : pollRes env.latestMessage 3 0 with
    | ok o => rw [hp2] at hp; simp [Except.isOk, Except.toBool] at hp
    | error e =>
      simp [step5, rcatch, rbind, rlift, remit, rthrow, pollLoop_eq, hs, hp2]
  · simp [step5, rcatch, rbind, rlift, remit, rthrow, pollLoop_eq, relayPart, hs, hp]

lemma step5_snd_found (env : Env) (m : Msg) (hs : env.sendMessage = Except.ok ())
    (hp : pollRes env.latestMessage 3 0 = Except.ok (some m)) :
    (step5 env).2 =
      Event.callSendMessage setupCommand ::
        Event.logInfo "Setup command sent to private group" ::
          (pollTr env.latestMessage 3 0 ++
            (Event.callForward m.id ::
              (match env.forward with
               | Except.ok _ => [Event.logInfo "Setup message forwarded to public channel"]
               | Except.error _ => []))) := by
  cases hf : env.forward with
  | ok u =>
    simp [step5, rcatch, rbind, rlift, remit, rthrow, pollLoop_eq, relayPart, hs, hp, hf]
  | error e =>
    simp [step5, rcatch, rbind, rlift, remit, rthrow, pollLoop_eq, relayPart, hs, hp, hf]

lemma step5_fst_nomatch (env : Env) (hs : env.sendMessage = Except.ok ())
    (hp : pollRes env.latestMessage 3 0 = Except.ok none) :
    (step5 env).1 =
      Except.error (Exc.setupError
        "Failed during setup message handling: Failed to get setup message from Safeguard bot") := by
  simp [step5, rcatch, rbind, rlift, remit, rthrow, pollLoop_eq, relayPart, step5_handler,
    excStr, hs, hp]

/- ----------------------------------------------------------------- -/
/- Poll outcome under miss/hit hypotheses                             -/
/- ----------------------------------------------------------------- -/

lemma poll_first_hit (f : Nat → Option Msg) (j : Nat) (m : Msg) (b : String)
    (hj : j < 3) (hmiss : ∀ i, i < j → attemptMiss f i)
    (hm : f j = some m) (hb : m.body = some b) (hc : containsSub b botName = true) :
    pollRes f 3 0 = Except.ok (some m) ∧
    pollTr f 3 0 =
      (List.range (j + 1)).flatMap (fun i => [Event.sleep 2, Event.checkLatest i]) := by
  interval_cases j
  · have h0 : pollRes f 3 0 = Except.ok (some m) ∧
        pollTr f 3 0 = [Event.sleep 2, Event.checkLatest 0] :=
      pollRes_hit f 2 0 m b hm hb hc
    refine ⟨h0.1, ?_⟩
    rw [h0.2]
    decide
  · have s0 : pollRes f 3 0 = pollRes f 2 1 ∧
        pollTr f 3 0 = Event.sleep 2 :: Event.checkLatest 0 :: pollTr f 2 1 :=
      pollRes_miss f 2 0 (hmiss 0 (by omega))
    have h1 : pollRes f 2 1 = Except.ok (some m) ∧
        pollTr f 2 1 = [Event.sleep 2, Event.checkLatest 1] :=
      pollRes_hit f 1 1 m b hm hb hc
    refine ⟨by rw [s0.1, h1.1], ?_⟩
    rw [s0.2, h1.2]
    decide
  · have s0 : pollRes f 3 0 = pollRes f 2 1 ∧
        pollTr f 3 0 = Event.sleep 2 :: Event.checkLatest 0 :: pollTr f 2 1 :=
      pollRes_miss f 2 0 (hmiss 0 (by omega))
    have s1 : pollRes f 2 1 = pollRes f 1 2 ∧
        pollTr f 2 1 = Event.sleep 2 :: Event.checkLatest 1 :: pollTr f 1 2 :=
      pollRes_miss f 1 1 (hmiss 1 (by omega))
    have h2 : pollRes f 1 2 = Except.ok (some m) ∧
        pollTr f 1 2 = [Event.sleep 2, Event.checkLatest 2] :=
      pollRes_hit f 0 2 m b hm hb hc
    refine ⟨by rw [s0.1, s1.1, h2.1], ?_⟩
    rw [s0.2, s1.2, h2.2]
    decide

lemma poll_all_miss (f : Nat → Option Msg) (hmiss : ∀ i, i < 3 → attemptMiss f i) :
    pollRes f 3 0 = Except.ok none ∧
    pollTr f 3 0 =
      (List.range 3).flatMap (fun i => [Event.sleep 2, Event.checkLatest i]) := by
  have s0 : pollRes f 3 0 = pollRes f 2 1 ∧
      pollTr f 3 0 = Event.sleep 2 :: Event.checkLatest 0 :: pollTr f 2 1 :=
    pollRes_miss f 2 0 (hmiss 0 (by omega))
  have s1 : pollRes f 2 1 = pollRes f 1 2 ∧
      pollTr f 2 1 = Event.sleep 2 :: Event.checkLatest 1 :: pollTr f 1 2 :=
    pollRes_miss f 1 1 (hmiss 1 (by omega))
  have s2 : pollRes f 1 2 = pollRes f 0 3 ∧
      pollTr f 1 2 = Event.sleep 2 :: Event.checkLatest 2 :: pollTr f 0 3 :=
    pollRes_miss f 0 2 (hmiss 2 (by omega))
  refine ⟨by rw [s0.1, s1.1, s2.1]; rfl, ?_⟩
  rw [s0.2, s1.2, s2.2]
  have h0 : pollTr f 0 3 = [] := rfl
  rw [h0]
  decide

lemma countP_pairs_check (j : Nat) :
    ((List.range j).flatMap (fun i => [Event.sleep 2, Event.checkLatest i])).countP
      Event.isCheck = j := by
  induction j with
  | zero => rfl
  | succ j ih =>
    rw [List.range_succ, List.flatMap_append]
    simp [List.countP_append, List.countP_cons, Event.isCheck, Event.isSleep, ih]

lemma countP_pairs_sleep (j : Nat) :
    ((List.range j).flatMap (fun i => [Event.sleep 2, Event.checkLatest i])).countP
      Event.isSleep = j := by
  induction j with
  | zero => rfl
  | succ j ih =>
    rw [List.range_succ, List.flatMap_append]
    simp [List.countP_append, List.countP_cons, Event.isCheck, Event.isSleep, ih]

lemma countP_pairs_forward (j : Nat) :
    ((List.range j).flatMap (fun i => [Event.sleep 2, Event.checkLatest i])).countP
      Event.isForward = 0 := by
  induction j with
  | zero => rfl
  | succ j ih =>
    rw [List.range_succ, List.flatMap_append]
    simp [List.countP_append, List.countP_cons, Event.isForward, ih]

/-- C5 counterexample: when no poll attempt matches, the step does not
yield the bare not-received message — its own generic except clause wraps
it into the handling-failure message (no forward is performed either way). -/
theorem C5_not_received_counterexample :
    (step5 envMiss).1 ≠
      Except.error (Exc.setupError "Failed to get setup message from Safeguard bot") ∧
    (step5 envMiss).1 =
      Except.error (Exc.setupError
        "Failed during setup message handling: Failed to get setup message from Safeguard bot") ∧
    (step5 envMiss).2.countP Event.isForward = 0 := by
  refine ⟨?_, ?_, ?_⟩ <;> decide

/-- C5 amended: the poll checks the latest message at most 3 times, each
check preceded by a 2-second pause; it stops at the first matching check
and forwards exactly that message; when no check matches it performs no
forward and fails with the relay-failure message wrapping the
not-received message (rather than the bare not-received kind). -/
theorem C5_poll_bounded_and_first_match (env : Env) (j : Nat) (m : Msg) (b : String) :
    ((step5 env).2.countP Event.isCheck ≤ 3) ∧
    (env.sendMessage = Except.ok () → j < 3 → (∀ i, i < j → attemptMiss env.latestMessage i) →
      env.latestMessage j = some m → m.body = some b → containsSub b botName = true →
      ((step5 env).2.countP Event.isCheck = j + 1 ∧
       (step5 env).2.countP Event.isSleep = j + 1 ∧
       Event.callForward m.id ∈ (step5 env).2 ∧
       (step5 env).2.countP Event.isForward = 1)) ∧
    (env.sendMessage = Except.ok () → (∀ i, i < 3 → attemptMiss env.latestMessage i) →
      ((step5 env).1 = Except.error (Exc.setupError
         "Failed during setup message handling: Failed to get setup message from Safeguard bot") ∧
       (step5 env).2.countP Event.isForward = 0)) := by
  refine ⟨?_, ?_, ?_⟩
  · cases hs : env.sendMessage with
    | error e =>
      rw [step5_snd_senderr env e hs]
      simp [Event.isCheck]
    | ok u =>
      cases u
      have hb3 := pollTr_countP_check_le env.latestMessage 3 0
      cases hp : pollRes env.latestMessage 3 0 with
      | error e2 =>
        rw [step5_snd_nofind env hs (Or.inl (by rw [hp]; rfl))]
        simpa [List.countP_cons, Event.isCheck] using hb3
      | ok o =>
        cases o with
        | none =>
          rw [step5_snd_nofind env hs (Or.inr hp)]
          simpa [List.countP_cons, Event.isCheck] using hb3
        | some m2 =>
          rw [step5_snd_found env m2 hs hp]
          cases hf : env.forward with
          | ok u2 =>
            simpa [List.countP_cons, List.countP_append, Event.isCheck] using hb3
          | error e3 =>
            simpa [List.countP_cons, List.countP_append, Event.isCheck] using hb3
  · intro hs hj hmiss hm hbm hc
    obtain ⟨hres, htr⟩ := poll_first_hit env.latestMessage j m b hj hmiss hm hbm hc
    have hsnd := step5_snd_found env m hs hres
    cases hf : env.forward with
    | ok u =>
      rw [hf] at hsnd
      rw [hsnd, htr]
      refine ⟨?_, ?_, ?_, ?_⟩ <;>
        simp [List.countP_cons, List.countP_append, Event.isCheck, Event.isSleep,
          Event.isForward, countP_pairs_check, countP_pairs_sleep, countP_pairs_forward]
    | error e =>
      rw [hf] at hsnd
      rw [hsnd, htr]
      refine ⟨?_, ?_, ?_, ?_⟩ <;>
        simp [List.countP_cons, List.countP_append, Event.isCheck, Event.isSleep,
          Event.isForward, countP_pairs_check, countP_pairs_sleep, countP_pairs_forward]
  · intro hs hmiss
    obtain ⟨hres, htr⟩ := poll_all_miss env.latestMessage hmiss
    refine ⟨step5_fst_nomatch env hs hres, ?_⟩
    rw [step5_snd_nofind env hs (Or.inr hres), htr]
    simp [List.countP_cons, Event.isForward, countP_pairs_forward]

/-- Witness for the amended C5: in the cooperative environment the bot
replies on the 2nd attempt; exactly 2 checks happen and message 101 is
forwarded exactly once. -/
theorem C5_poll_bounded_and_first_match_witness :
    (step5 envHappy).2.countP Event.isCheck = 2 ∧
    Event.callForward 101 ∈ (step5 envHappy).2 ∧
    (step5 envHappy).2.countP Event.isForward = 1 := by
  have hmiss : ∀ i, i < 1 → attemptMiss envHappy.latestMessage i := by
    intro i hi
    interval_cases i
    exact Or.inr ⟨{ id := 100, body := some "hi" }, "hi", rfl, rfl, by decide⟩
  have h := (C5_poll_bounded_and_first_match envHappy 1
      { id := 101, body := some "ok SafeguardRobot" } "ok SafeguardRobot").2.1
    rfl (by omega) hmiss rfl rfl (by decide)
  exact ⟨h.1, h.2.2.1, h.2.2.2⟩

/-- C6 counterexample: a rate-limit signal raised inside the
group-creation step is swallowed by that step's generic except clause and
surfaces as the step's generic failure, not as the top-level rate-limit
report, and the rate-limit log line is never written. -/
theorem C6_rate_limit_counterexample :
    (setup_safeguard_system envFloodStep "myportal" "Guard Group" "Guard Channel").1 =
      Except.error (Exc.setupError
        "Failed to create private group: a wait of 42 seconds is required") ∧
    (setup_safeguard_system envFloodStep "myportal" "Guard Group" "Guard Channel").1 ≠
      Except.error (Exc.setupError "Rate limit hit. Please wait 42 seconds before trying again") ∧
    Event.logError "Hit rate limit. Please wait 42 seconds" ∉
      (setup_safeguard_system envFloodStep "myportal" "Guard Group" "Guard Channel").2 := by
  refine ⟨?_, ?_, ?_⟩ <;> decide

/-- C6 amended: only a rate-limit signal raised outside the per-step
except clauses (here: during client start) reaches the top-level handler
and is reported with the mandated wait time; a rate-limit signal inside a
step's try block is wrapped into that step's generic failure kind. -/
theorem C6_rate_limit_top_level (env : Env) (pu gt ct : String) (s : Nat) :
    (env.startResult = Except.error (Exc.floodWait s) →
      (setup_safeguard_system env pu gt ct).1 =
        Except.error (Exc.setupError
          ("Rate limit hit. Please wait " ++ toString s ++ " seconds before trying again")) ∧
      Event.logError ("Hit rate limit. Please wait " ++ toString s ++ " seconds") ∈
        (setup_safeguard_system env pu gt ct).2) ∧
    (env.startResult = Except.ok () → env.isAuthorized = true →
     env.createGroup = Except.error (Exc.floodWait s) →
      (setup_safeguard_system env pu gt ct).1 =
        Except.error (Exc.setupError
          ("Failed to create private group: " ++ excStr (Exc.floodWait s)))) := by
  constructor
  · intro hstart
    have hinner : inner_body env pu gt ct = (Except.error (Exc.floodWait s), []) := by
      simp [inner_body, rbind, rlift, hstart]
    constructor
    · rw [run_fst, fst_rcatch_err (by rw [hinner])]
      simp [top_handler, rbind, remit, rthrow]
    · rw [run_snd]
      simp [hinner, rcatch, top_handler, rbind, remit, rthrow]
  · intro hstart hauth hcg
    rw [run_fst]
    have hinner : (inner_body env pu gt ct).1 =
        Except.error (Exc.setupError
          ("Failed to create private group: " ++ excStr (Exc.floodWait s))) := by
      simp [inner_body, authCheck, step1, rcatch, rbind, rlift, remit, rthrow, rpure,
        hstart, hauth, hcg]
    rw [fst_rcatch_err hinner]
    simp [top_handler, rbind, remit, rthrow]

/-- Witness for the amended C6 at a start-time rate limit of 42 seconds. -/
theorem C6_rate_limit_top_level_witness :
    (setup_safeguard_system envFloodStart "myportal" "Guard Group" "Guard Channel").1 =
      Except.error (Exc.setupError
        ("Rate limit hit. Please wait " ++ toString 42 ++ " seconds before trying again")) :=
  ((C6_rate_limit_top_level envFloodStart "myportal" "Guard Group" "Guard Channel" 42).1 rfl).1

/-- C7 counterexample: the mocked fully successful run writes 11
informational log entries, not 9. -/
theorem C7_log_count_counterexample :
    (setup_safeguard_system envHappy "myportal" "Guard Group" "Guard Channel").2.countP
      Event.isInfo ≠ 9 := by
  decide

/-- C7 amended: the mocked fully successful run (bot replies on the 2nd
poll attempt) reaches Done with the exported invite link, forwards exactly
one message, and logs exactly 11 informational entries and 0 error
entries. -/
theorem C7_successful_run :
    (setup_safeguard_system envHappy "myportal" "Guard Group" "Guard Channel").1 =
      Except.ok "invite-link" ∧
    (setup_safeguard_system envHappy "myportal" "Guard Group" "Guard Channel").2.countP
      Event.isForward = 1 ∧
    (setup_safeguard_system envHappy "myportal" "Guard Group" "Guard Channel").2.countP
      Event.isInfo = 11 ∧
    (setup_safeguard_system envHappy "myportal" "Guard Group" "Guard Channel").2.countP
      Event.isErr = 0 := by
  refine ⟨?_, ?_, ?_, ?_⟩ <;> decide

/-- C8: with a session that is not authorized, the run fails with the
not-authorized message before any of the seven steps: the whole trace is
just the error log entry and the disconnect. -/
theorem C8_not_authorized (env : Env) (pu gt ct : String)
    (hs : env.startResult = Except.ok ()) (ha : env.isAuthorized = false) :
    (setup_safeguard_system env pu gt ct).1 =
      Except.error (Exc.setupError
        "User not authorized. Please run the script with an authorized session.") ∧
    (setup_safeguard_system env pu gt ct).2 =
      [Event.logError
         "Unexpected error: User not authorized. Please run the script with an authorized session.",
       Event.disconnect] := by
  constructor <;>
    simp [run_fst, run_snd, inner_body, authCheck, rcatch, rbind, rlift, remit, rthrow,
      top_handler, excStr, hs, ha]

/-- Witness for C8 at a concrete unauthorized session. -/
theorem C8_not_authorized_witness :
    (setup_safeguard_system envUnauthorized "myportal" "Guard Group" "Guard Channel").1 =
      Except.error (Exc.setupError
        "User not authorized. Please run the script with an authorized session.") :=
  (C8_not_authorized envUnauthorized "myportal" "Guard Group" "Guard Channel" rfl rfl).1

/- ----------------------------------------------------------------- -/
/- checksPaused lemmas                                                -/
/- ----------------------------------------------------------------- -/

@[simp] lemma checksPaused_nil : checksPaused [] = true := rfl

@[simp] lemma checksPaused_send (s : String) (l : List Event) :
    checksPaused (Event.callSendMessage s :: l) = checksPaused l := rfl

@[simp] lemma checksPaused_log (s : String) (l : List Event) :
    checksPaused (Event.logInfo s :: l) = checksPaused l := rfl

@[simp] lemma checksPaused_forward (i : Nat) (l : List Event) :
    checksPaused (Event.callForward i :: l) = checksPaused l := rfl

@[simp] lemma checksPaused_pair (s i : Nat) (l : List Event) :
    checksPaused (Event.sleep s :: Event.checkLatest i :: l) =
      ((s == 2) && checksPaused l) := rfl

lemma checksPaused_pollTr_append (f : Nat → Option Msg) (r a : Nat) (rest : List Event)
    (h : checksPaused rest = true) : checksPaused (pollTr f r a ++ rest) = true := by
  induction r generalizing a with
  | zero => simpa [pollTr] using h
  | succ r ih =>
    cases hf : f a with
    | none => simp [pollTr, hf, ih]
    | some m =>
      cases hb : m.body with
      | none => simp [pollTr, hf, hb, h]
      | some b =>
        by_cases hc : containsSub b botName
        · simp [pollTr, hf, hb, hc, h]
        · simp [pollTr, hf, hb, hc, ih]

lemma pollTr_head (f : Nat → Option Msg) (r a : Nat) :
    ∃ x, pollTr f (r + 1) a = Event.sleep 2 :: Event.checkLatest a :: x :=
  ⟨_, rfl⟩

/-- C9: every check of the poll is immediately preceded by a 2-second
pause, including the first: whenever the setup command was sent
successfully, the four events that start the trigger-and-relay step are
the send, its log entry, a 2-second sleep, and only then the first check
of the group's latest message. -/
theorem C9_pause_before_every_check (env : Env) :
    checksPaused (step5 env).2 = true ∧
    (env.sendMessage = Except.ok () →
      (step5 env).2.take 4 =
        [Event.callSendMessage setupCommand,
         Event.logInfo "Setup command sent to private group",
         Event.sleep 2, Event.checkLatest 0]) := by
  have hhead := pollTr_head env.latestMessage 2 0
  constructor
  · cases hs : env.sendMessage with
    | error e =>
      rw [step5_snd_senderr env e hs]
      rfl
    | ok u =>
      cases u
      cases hp : pollRes env.latestMessage 3 0 with
      | error e2 =>
        rw [step5_snd_nofind env hs (Or.inl (by rw [hp]; rfl))]
        simp
        have := checksPaused_pollTr_append env.latestMessage 3 0 [] rfl
        simpa using this
      | ok o =>
        cases o with
        | none =>
          rw [step5_snd_nofind env hs (Or.inr hp)]
          simp
          have := checksPaused_pollTr_append env.latestMessage 3 0 [] rfl
          simpa using this
        | some m =>
          rw [step5_snd_found env m hs hp]
          simp
          apply checksPaused_pollTr_append
          cases hf : env.forward <;> simp
  · intro hs
    obtain ⟨x, hx⟩ := hhead
    cases hp : pollRes env.latestMessage 3 0 with
    | error e2 =>
      rw [step5_snd_nofind env hs (Or.inl (by rw [hp]; rfl)), hx]
      rfl
    | ok o =>
      cases o with
      | none =>
        rw [step5_snd_nofind env hs (Or.inr hp), hx]
        rfl
      | some m =>
        rw [step5_snd_found env m hs hp, hx]
        rfl

/-- Witness for C9 in the cooperative environment. -/
theorem C9_pause_before_every_check_witness :
    checksPaused (step5 envHappy).2 = true ∧
    (step5 envHappy).2.take 4 =
      [Event.callSendMessage setupCommand,
       Event.logInfo "Setup command sent to private group",
       Event.sleep 2, Event.checkLatest 0] :=
  ⟨(C9_pause_before_every_check envHappy).1,
   (C9_pause_before_every_check envHappy).2 rfl⟩

lemma poll_first_bad (f : Nat → Option Msg) (j : Nat) (m : Msg)
    (hj : j < 3) (hmiss : ∀ i, i < j → attemptMiss f i)
    (hm : f j = some m) (hb : m.body = none) :
    pollRes f 3 0 =
      Except.error (Exc.typeError
        ("argument of type " ++ apos ++ "NoneType" ++ apos ++ " is not iterable")) ∧
    pollTr f 3 0 =
      (List.range (j + 1)).flatMap (fun i => [Event.sleep 2, Event.checkLatest i]) := by
  interval_cases j
  · have h0 : pollRes f 3 0 =
        Except.error (Exc.typeError
          ("argument of type " ++ apos ++ "NoneType" ++ apos ++ " is not iterable")) ∧
        pollTr f 3 0 = [Event.sleep 2, Event.checkLatest 0] :=
      pollRes_badBody f 2 0 m hm hb
    refine ⟨h0.1, ?_⟩
    rw [h0.2]
    decide
  · have s0 : pollRes f 3 0 = pollRes f 2 1 ∧
        pollTr f 3 0 = Event.sleep 2 :: Event.checkLatest 0 :: pollTr f 2 1 :=
      pollRes_miss f 2 0 (hmiss 0 (by omega))
    have h1 : pollRes f 2 1 =
        Except.error (Exc.typeError
          ("argument of type " ++ apos ++ "NoneType" ++ apos ++ " is not iterable")) ∧
        pollTr f 2 1 = [Event.sleep 2, Event.checkLatest 1] :=
      pollRes_badBody f 1 1 m hm hb
    refine ⟨by rw [s0.1, h1.1], ?_⟩
    rw [s0.2, h1.2]
    decide
  · have s0 : pollRes f 3 0 = pollRes f 2 1 ∧
        pollTr f 3 0 = Event.sleep 2 :: Event.checkLatest 0 :: pollTr f 2 1 :=
      pollRes_miss f 2 0 (hmiss 0 (by omega))
    have s1 : pollRes f 2 1 = pollRes f 1 2 ∧
        pollTr f 2 1 = Event.sleep 2 :: Event.checkLatest 1 :: pollTr f 1 2 :=
      pollRes_miss f 1 1 (hmiss 1 (by omega))
    have h2 : pollRes f 1 2 =
        Except.error (Exc.typeError
          ("argument of type " ++ apos ++ "NoneType" ++ apos ++ " is not iterable")) ∧
        pollTr f 1 2 = [Event.sleep 2, Event.checkLatest 2] :=
      pollRes_badBody f 0 2 m hm hb
    refine ⟨by rw [s0.1, s1.1, h2.1], ?_⟩
    rw [s0.2, s1.2, h2.2]
    decide

lemma step5_fst_pollerr (env : Env) (e : Exc) (hs : env.sendMessage = Except.ok ())
    (hp : pollRes env.latestMessage 3 0 = Except.error e) :
    (step5 env).1 =
      Except.error (Exc.setupError ("Failed during setup message handling: " ++ excStr e)) := by
  simp [step5, rcatch, rbind, rlift, remit, rthrow, pollLoop_eq, step5_handler, hs, hp]

/-- C10: when the latest message of some poll attempt has no text body,
the containment test raises TypeError and the whole trigger-and-relay step
aborts with the generic relay-failure message: no further poll attempt is
made and no forward is performed, rather than treating the attempt as a
non-match. -/
theorem C10_bodyless_message_aborts (env : Env) (j : Nat) (m : Msg)
    (hs : env.sendMessage = Except.ok ()) (hj : j < 3)
    (hmiss : ∀ i, i < j → attemptMiss env.latestMessage i)
    (hm : env.latestMessage j = some m) (hb : m.body = none) :
    (step5 env).1 =
      Except.error (Exc.setupError
        ("Failed during setup message handling: argument of type " ++ apos ++ "NoneType" ++
          apos ++ " is not iterable")) ∧
    (step5 env).2.countP Event.isCheck = j + 1 ∧
    (step5 env).2.countP Event.isForward = 0 := by
  obtain ⟨hres, htr⟩ := poll_first_bad env.latestMessage j m hj hmiss hm hb
  refine ⟨?_, ?_, ?_⟩
  · have h := step5_fst_pollerr env _ hs hres
    simpa [excStr] using h
  · rw [step5_snd_nofind env hs (Or.inl (by rw [hres]; rfl)), htr]
    simp [List.countP_cons, Event.isCheck, countP_pairs_check]
  · rw [step5_snd_nofind env hs (Or.inl (by rw [hres]; rfl)), htr]
    simp [List.countP_cons, Event.isForward, countP_pairs_forward]

/-- Witness for C10: a bodyless latest message on the very first attempt. -/
theorem C10_bodyless_message_aborts_witness :
    (step5 envNoBody).1 =
      Except.error (Exc.setupError
        ("Failed during setup message handling: argument of type " ++ apos ++ "NoneType" ++
          apos ++ " is not iterable")) ∧
    (step5 envNoBody).2.countP Event.isCheck = 0 + 1 ∧
    (step5 envNoBody).2.countP Event.isForward = 0 :=
  C10_bodyless_message_aborts envNoBody 0 { id := 300, body := none } rfl (by omega)
    (fun i hi => absurd hi (by omega)) rfl rfl
